import Mathlib

/-!
Verification of the horizon-app collaborative whiteboard backend.

This file gives a shallow embedding of the room synchronization core:
the scene sanitizer (the mongoose pre-save hook in
src/backend/src/services/roomService.js and the zoom sanitization in
src/backend/src/sockets/socketHandler.js), the room state store
operations, the soft input validator (src/unnamed/part_000), and the
socket event handlers, together with theorems about them.

JavaScript values reaching the numeric sanitization paths are embedded
as the type JsVal below: finite numbers (as rationals), NaN, null,
undefined, and single-field objects standing for the zoom wrapper
objects.  JavaScript objects are embedded as association lists from
property names to JsVal, read at the first matching key (JS objects
have unique keys; the embedding's operations agree with JS on such
inputs).
-/

/-- A JavaScript value as it flows through the numeric sanitization
paths of the backend. -/
inductive JsVal where
  | num (q : ℚ)
  | nan
  | null
  | undefined
  | vobj (value : JsVal)
deriving DecidableEq

/-- JS truthiness of a JsVal: numbers are truthy unless 0, NaN, null
and undefined are falsy, objects are truthy. -/
def jsTruthy : JsVal → Bool
  | .num q => decide (q ≠ 0)
  | .nan => false
  | .null => false
  | .undefined => false
  | .vobj _ => true

/-- The JS test typeof v === 'object': true for objects and for null. -/
def jsTypeofObject : JsVal → Bool
  | .vobj _ => true
  | .null => true
  | _ => false

/-- The JS global isNaN: ToNumber(v) is NaN.  Numbers are not NaN,
NaN is, null coerces to 0, undefined to NaN, plain objects to NaN. -/
def jsIsNaN : JsVal → Bool
  | .num _ => false
  | .nan => true
  | .null => false
  | .undefined => true
  | .vobj _ => true

/-- The JS comparison v <= 0: numbers compare directly, null coerces
to 0 (so null <= 0 holds), NaN, undefined and objects compare false. -/
def jsLe0 : JsVal → Bool
  | .num q => decide (q ≤ 0)
  | .null => true
  | _ => false

/-- Property access v.value in JS, which throws a TypeError on null:
embedded as Except.  On a wrapper object it reads the field; on a
number, NaN or undefined base the code paths below never reach it. -/
def jsValueProp : JsVal → Except String JsVal
  | .vobj v => .ok v
  | .null => .error "Cannot read properties of null"
  | _ => .ok .undefined

/-- A JavaScript object: association list from property names to
values, read at the first matching key. -/
abbrev JsObj := List (String × JsVal)

/-- Property read o[k], giving undefined when the key is absent. -/
def jget : JsObj → String → JsVal
  | [], _ => .undefined
  | p :: rest, k => if p.1 = k then p.2 else jget rest k

/-- Whether the object has the key. -/
def jhas : JsObj → String → Bool
  | [], _ => false
  | p :: rest, k => p.1 = k || jhas rest k

/-- Property write o[k] = v: replaces the first binding of k in place,
appends a new binding when the key is absent. -/
def jset : JsObj → String → JsVal → JsObj
  | [], k, v => [(k, v)]
  | p :: rest, k, v => if p.1 = k then (k, v) :: rest else p :: jset rest k v

/-- The JS object spread {...a, ...b}: keys of a in order, values
overridden by b where b has the key, then keys of b not in a. -/
def jmerge (a b : JsObj) : JsObj :=
  a.map (fun p => if jhas b p.1 then (p.1, jget b p.1) else p)
    ++ b.filter (fun q => !jhas a q.1)

/-- Read of the value field used by the pre-save hook under its
truthiness guard; the guard excludes null, so only wrapper objects
reach the object branch there. -/
def objValue : JsVal → JsVal
  | .vobj v => v
  | _ => .undefined

/-- The zoom normalization of the mongoose pre-save hook
(roomService.js, roomSchema.pre save): zoomVal starts at 1; when
this.appState.zoom is truthy, its numeric value is extracted (a value
field for objects, the value itself otherwise) and kept unless it is
NaN or at most 0. -/
def presaveZoom (zoom : JsVal) : JsVal :=
  if jsTruthy zoom then
    let current := if jsTypeofObject zoom then objValue zoom else zoom
    if jsIsNaN current || jsLe0 current then .num 1 else current
  else .num 1

/-- One geometry fix of the pre-save hook: if isNaN(o[k]) then o[k] = 0. -/
def fixNaNProp (o : JsObj) (k : String) : JsObj :=
  if jsIsNaN (jget o k) then jset o k (.num 0) else o

/-- The appState part of the pre-save hook: force zoom to a wrapper
object with a positive numeric value, then coerce NaN scrollX and
scrollY to 0.  The hook runs under an if (this.appState) guard; rooms
always carry an appState object, which is truthy, so the guard always
passes in the embedding. -/
def sanitizeAppState (a : JsObj) : JsObj :=
  fixNaNProp
    (fixNaNProp (jset a "zoom" (.vobj (presaveZoom (jget a "zoom")))) "scrollX")
    "scrollY"

/-- A scene element: a stable string id plus its remaining properties
as a JS object (the mongoose room schema stores elements as untyped
Mixed values; merging and sanitization treat them as plain objects). -/
structure Element where
  id : String
  props : JsObj
deriving DecidableEq

/-- The element part of the pre-save hook: coerce NaN x, y, width,
height to 0, in that order. -/
def sanitizeElement (e : Element) : Element :=
  { e with props :=
      fixNaNProp (fixNaNProp (fixNaNProp (fixNaNProp e.props "x") "y") "width") "height" }

/-- A user-supplied string field as JS sees it: a string, null, or
undefined (absent). -/
inductive JsStr where
  | str (s : String)
  | null
  | undefined
deriving DecidableEq

/-- A presence entry (the mongoose userSchema): connection id, display
name, color, and the raw pointer payload. -/
structure UserEntry where
  socketId : String
  username : JsStr
  color : JsStr
  pointer : JsObj
deriving DecidableEq

/-- A room document: elements, view appState, files, presence entries
and the version counter (timestamps are not modeled). -/
structure Room where
  roomId : String
  elements : List Element
  appState : JsObj
  files : JsObj
  activeUsers : List UserEntry
  version : ℤ
deriving DecidableEq

/-- The full pre-save hook applied to a room document: sanitize the
appState and every element. -/
def preSave (r : Room) : Room :=
  { r with
      appState := sanitizeAppState r.appState,
      elements := r.elements.map sanitizeElement }

/-- Mongoose required-field check for the color path of userSchema
(color: String, required: true): satisfied exactly by a nonempty
string; undefined, null and the empty string fail it. -/
def validColor : JsStr → Bool
  | .str s => decide (s ≠ "")
  | _ => false

/-- Saving a room document: mongoose runs the pre-save hook and
validates the schema; the only required field without a default that
the handlers can leave unset is activeUsers color, so validation fails
exactly when some presence entry has an invalid color.  A failed save
leaves the stored document unchanged. -/
def roomSave (r : Room) : Option Room :=
  if r.activeUsers.all (fun u => validColor u.color) then some (preSave r) else none

/-- Mongoose default casting for the username path (default
'Anonymous'): the default applies only when the value is undefined;
null and the empty string are kept as given. -/
def castUsername : JsStr → JsStr
  | .undefined => .str "Anonymous"
  | v => v

/-- A fresh room as createRoom builds it. -/
def newRoom (roomId : String) : Room :=
  { roomId := roomId
    elements := []
    appState :=
      [("viewBackgroundColor", .undefined), ("scrollX", .num 0), ("scrollY", .num 0),
       ("zoom", .vobj (.num 1))]
    files := []
    activeUsers := []
    version := 1 }

/-- A scene-update payload after the soft Joi validation (elements,
optional appState, optional files; a none appState or files embeds a
null or undefined value, which is falsy). -/
structure SceneMsg where
  elements : List Element
  appState : Option JsObj
  files : Option JsObj
deriving DecidableEq

/-- The zoom sanitization block of the scene-update socket handler.
Unlike the pre-save hook it has no truthiness guard: it reads
rawZoom.value whenever typeof rawZoom is object, so a null zoom
throws a TypeError, which the handler's catch turns into an error
event; embedded as Except. -/
def socketSanitizeApp (a : JsObj) : Except String JsObj :=
  match (if jsTypeofObject (jget a "zoom") then jsValueProp (jget a "zoom")
         else .ok (jget a "zoom")) with
  | .error e => .error e
  | .ok zoomValue =>
      let safeZoom :=
        if jsIsNaN zoomValue || jsLe0 zoomValue then JsVal.num 1 else zoomValue
      .ok (fixNaNProp (fixNaNProp (jset a "zoom" (.vobj safeZoom)) "scrollX")
            "scrollY")

/-- The appState part of the scene-update handler: runs the zoom and
scroll sanitization when appState is truthy, otherwise passes the
payload through. -/
def sanitizeSceneMsg (m : SceneMsg) : Except String SceneMsg :=
  match m.appState with
  | none => .ok m
  | some a =>
      match socketSanitizeApp a with
      | .ok a1 => .ok { m with appState := some a1 }
      | .error e => .error e

/-- The field merge the claim and the spec describe for an updated
entry, and that incrementalUpdate attempts as the spread of
this.elements[index].toObject() with updatedEl: update properties
override, properties absent from the update are retained, the id comes
from the update.  The program never computes this spread: the elements
path is a Mixed array of plain objects, so the toObject() call throws
first.  The definition carries the claim's intended merge and is used
only by the claim-side applyUpdatedSpec. -/
def mergeElem (old upd : Element) : Element :=
  { id := upd.id, props := jmerge old.props upd.props }

/-- An incremental-update payload {added, updated, deleted}; absent
lists and empty lists behave identically under the source's
length-zero guards and are both embedded as the empty list. -/
structure IncrUpdates where
  added : List Element
  updated : List Element
  deleted : List String
deriving DecidableEq

/-- One step of the forEach over updated entries in
roomSchema.methods.incrementalUpdate: findIndex of the first element
with the entry's id; when the index is not -1 the code evaluates
this.elements[index].toObject(), which throws a TypeError because the
room schema stores elements as a Mixed array of plain objects (the
separate elementSchema is never attached), so every matched entry
aborts the batch; an unmatched entry leaves the list unchanged. -/
def applyUpdatedJs (els : List Element) (upd : Element) :
    Except String (List Element) :=
  match els.findIdx? (fun el => el.id == upd.id) with
  | some _ => .error "this.elements[index].toObject is not a function"
  | none => .ok els

/-- roomSchema.methods.incrementalUpdate: filter out deleted ids, then
run the forEach over updated entries, whose first matched entry throws
a TypeError (aborting before the version increment and the save; the
partially mutated in-memory document is never saved, so the stored
state is unchanged), then append added elements, increment the version
once and save; each phase runs only under the source's nonempty-list
guard.  The throw is embedded as the error case of Except. -/
def Room.incrementalUpdate (r : Room) (u : IncrUpdates) : Except String Room :=
  let els1 :=
    if u.deleted.length > 0 then
      r.elements.filter (fun el => !u.deleted.contains el.id)
    else r.elements
  let step2 : Except String (List Element) :=
    if u.updated.length > 0 then u.updated.foldlM applyUpdatedJs els1
    else .ok els1
  match step2 with
  | .error e => .error e
  | .ok els2 =>
      let els3 := if u.added.length > 0 then els2 ++ u.added else els2
      .ok { r with elements := els3, version := r.version + 1 }

/-- The claim's wording of one updated entry: field-merge it into the
existing element with the same id; an entry whose id matches no
existing element is a no-op. -/
def applyUpdatedSpec : List Element → Element → List Element
  | [], _ => []
  | el :: rest, upd =>
      if el.id = upd.id then mergeElem el upd :: rest
      else el :: applyUpdatedSpec rest upd

/-- The claim's wording of an incremental batch: remove every element
whose id is in deleted, then field-merge each entry of updated, then
append every element of added, and increment the version by exactly
one for the whole batch. -/
def incrementalUpdateClaim (r : Room) (u : IncrUpdates) : Room :=
  { r with
      elements :=
        (u.updated.foldl applyUpdatedSpec
          (r.elements.filter (fun el => !u.deleted.contains el.id))) ++ u.added,
      version := r.version + 1 }

/-- roomSchema.methods.addUser: push a new presence entry only when no
entry with this socket id exists; mongoose casts a missing username to
the Anonymous default when the subdocument is created.  The save that
the method returns is modeled separately by roomSave. -/
def Room.addUser (r : Room) (socketId : String) (username color : JsStr) : Room :=
  if r.activeUsers.any (fun u => u.socketId == socketId) then r
  else
    { r with activeUsers := r.activeUsers ++
        [{ socketId := socketId, username := castUsername username, color := color,
           pointer := [("x", .num 0), ("y", .num 0)] }] }

/-- roomSchema.methods.removeUser: keep every entry whose socket id
differs. -/
def Room.removeUser (r : Room) (socketId : String) : Room :=
  { r with activeUsers := r.activeUsers.filter (fun u => u.socketId != socketId) }

/-- The positional update of Room.updateOne for pointer updates: set
the pointer of the first presence entry matching the socket id. -/
def updateFirstPointer : List UserEntry → String → JsObj → List UserEntry
  | [], _, _ => []
  | u :: rest, sid, p =>
      if u.socketId == sid then { u with pointer := p } :: rest
      else u :: updateFirstPointer rest sid p

/-- RoomService.updateRoomElements applied to a loaded room: replace
the element set, shallow-merge appState when given (new keys
overwrite, omitted keys are retained), replace the file map when
given, and increment the version; the save that follows is modeled by
roomSave. -/
def Room.updateElementsService (r : Room) (elements : List Element)
    (appState : Option JsObj) (files : Option JsObj) : Room :=
  let r1 := { r with elements := elements }
  let r2 :=
    match appState with
    | some a => { r1 with appState := jmerge r1.appState a }
    | none => r1
  let r3 :=
    match files with
    | some f => { r2 with files := f }
    | none => r2
  { r3 with version := r3.version + 1 }

/-- Whether all presence entries pass mongoose validation (the color
path is the only required field without a default). -/
def usersValid (r : Room) : Bool := r.activeUsers.all (fun u => validColor u.color)

/-- A Room State Store operation on an existing room, as dispatched by
RoomService: createRoom on an existing id, getRoom, full element
replace, incremental batch, presence add and remove, pointer update. -/
inductive StoreOp where
  | createExisting
  | getRoom
  | updateElements (elements : List Element) (appState : Option JsObj)
      (files : Option JsObj)
  | incrUpdate (u : IncrUpdates)
  | addUser (socketId : String) (username color : JsStr)
  | removeUser (socketId : String)
  | pointerUpdate (socketId : String) (p : JsObj)
deriving DecidableEq

/-- The scene mutations among the store operations. -/
def StoreOp.isSceneMutation : StoreOp → Bool
  | .updateElements .. => true
  | .incrUpdate _ => true
  | _ => false

/-- One store operation applied to an existing room.  Operations whose
JS code path calls save go through roomSave, and a rejected save
leaves the stored document unchanged; an incremental batch that throws
inside the method aborts before the save, also leaving the stored
document unchanged; createRoom on an existing id and getRoom return
the room unchanged; the pointer path is an atomic field update that
never calls save. -/
def applyOp (r : Room) : StoreOp → Room
  | .createExisting => r
  | .getRoom => r
  | .updateElements els app files =>
      (roomSave (Room.updateElementsService r els app files)).getD r
  | .incrUpdate u =>
      match Room.incrementalUpdate r u with
      | .ok r1 => (roomSave r1).getD r
      | .error _ => r
  | .addUser sid un c => (roomSave (Room.addUser r sid un c)).getD r
  | .removeUser sid => (roomSave (Room.removeUser r sid)).getD r
  | .pointerUpdate sid p =>
      { r with activeUsers := updateFirstPointer r.activeUsers sid p }

/-- The result of one Joi schema validation: the converted value or a
validation error message. -/
inductive JoiResult (α : Type) where
  | ok (value : α)
  | err (message : String)
deriving DecidableEq

/-- A Joi schema over inputs of type α, as used by validate:
schema.validate with abortEarly false, stripUnknown false and convert
true, giving either the converted value or an error. -/
def JoiSchema (α : Type) : Type := α → JoiResult α

/-- The validate helper of the validation module: run the schema; on a
validation error log a warning and return the original data unchanged
rather than rejecting it; otherwise return the converted value.  It is
a total function of the input: it never throws. -/
def validate {α : Type} (schema : JoiSchema α) (data : α) : α :=
  match schema data with
  | .ok value => value
  | .err _ => data

/-- The roomIdSchema of the validation module: roomId must be a
present string of length between 1 and 100. -/
def roomIdSchemaJoi : JoiSchema (Option String) := fun data =>
  match data with
  | none => .err "roomId is required"
  | some s =>
      if s.length = 0 then .err "roomId is not allowed to be empty"
      else if s.length > 100 then .err "roomId length must be at most 100"
      else .ok (some s)

/-- Truthiness of the isDeleted flag of an element. -/
def isDeletedEl (e : Element) : Bool := jsTruthy (jget e.props "isDeleted")

/-- Numeric reading of a JsVal revision marker. -/
def jsValNum : JsVal → ℚ
  | .num q => q
  | _ => 0

/-- Modelled from the spec: getSceneVersion of the excalidraw package,
which the repository imports but does not vendor
(frontend-example/src/App.jsx line 2).  Per the Version Clock contract
it is a deterministic, order-independent combination (here the sum) of
each non-deleted element's version and versionNonce revision
markers. -/
def computeVersion (els : List Element) : ℚ :=
  ((els.filter (fun e => !isDeletedEl e)).map
    (fun e => jsValNum (jget e.props "version")
      + jsValNum (jget e.props "versionNonce"))).sum

/-- A socket event emitted by the handlers: either to the sender or
broadcast to the other members of a room (socket.to(roomId).emit,
which excludes the sender). -/
inductive Ev where
  | errorToSender (message : String)
  | sceneInitToSender (elements : List Element) (appState : JsObj)
      (users : List (String × JsStr × JsStr))
  | userJoinedBroadcast (roomId socketId : String) (username color : JsStr)
  | userLeftBroadcast (roomId socketId : String)
  | sceneUpdateBroadcast (roomId : String) (elements : List Element)
      (appState : Option JsObj) (files : Option JsObj)
  | incrementalUpdateBroadcast (roomId : String) (u : IncrUpdates)
  | pointerUpdateBroadcast (roomId socketId : String) (p : JsObj)
  | idleStatusBroadcast (roomId socketId : String) (idle : Bool)
deriving DecidableEq

/-- Server state seen by the socket handlers: the socketId-to-roomId
membership map of SocketHandler and the stored rooms of the Room State
Store (the in-memory and distributed caches are refreshed together
with the durable write and are not modeled separately). -/
structure SState where
  socketRoomMap : List (String × String)
  rooms : List (String × Room)
deriving DecidableEq

/-- Insert-or-replace in the membership map. -/
def setAssocStr : List (String × String) → String → String → List (String × String)
  | [], k, v => [(k, v)]
  | p :: rest, k, v => if p.1 == k then (k, v) :: rest else p :: setAssocStr rest k v

/-- Insert-or-replace in the room store. -/
def setAssocRoom : List (String × Room) → String → Room → List (String × Room)
  | [], k, r => [(k, r)]
  | p :: rest, k, r => if p.1 == k then (k, r) :: rest else p :: setAssocRoom rest k r

/-- The room a connection is joined to, if any
(this.socketRoomMap.get(socket.id)). -/
def lookupRoomOf (st : SState) (sid : String) : Option String :=
  (st.socketRoomMap.find? (fun p => p.1 == sid)).map (·.2)

/-- The stored room with the given id, if any. -/
def lookupRoom (st : SState) (roomId : String) : Option Room :=
  (st.rooms.find? (fun p => p.1 == roomId)).map (·.2)

/-- RoomService.updateRoomElements as invoked in the background by the
scene-update handler: load the room (creating it when missing),
replace elements, merge appState, replace files, bump the version and
save; the pre-save hook runs inside the save, and a rejected save
(caught and only logged by the handler) leaves the store unchanged. -/
def storeUpdateElements (st : SState) (roomId : String) (m : SceneMsg) : SState :=
  let room := (lookupRoom st roomId).getD (newRoom roomId)
  match roomSave (Room.updateElementsService room m.elements m.appState m.files) with
  | some r' => { st with rooms := setAssocRoom st.rooms roomId r' }
  | none => st

/-- RoomService.incrementalUpdate: load the room (creating it when
missing), apply the batch, save; both the TypeError the method throws
on a matched updated entry and a rejected save propagate as an error
to the socket handler, leaving the stored state unchanged. -/
def storeIncrementalUpdate (st : SState) (roomId : String) (u : IncrUpdates) :
    Option SState :=
  let room := (lookupRoom st roomId).getD (newRoom roomId)
  match Room.incrementalUpdate room u with
  | .error _ => none
  | .ok r1 =>
      match roomSave r1 with
      | some r' => some { st with rooms := setAssocRoom st.rooms roomId r' }
      | none => none

/-- The scene-update socket handler: an unjoined sender gets a 'Not in
a room' error; the payload is soft-validated (typed payloads pass
through) and its appState zoom and scrolls sanitized (the TypeError a
null zoom throws is caught and reported as an error event); the
sanitized payload is broadcast to the other room members; the store
write then runs in the background, its failure only logged (saveFails
true models a failed durable write: the store stays unchanged and
nothing is emitted about it). -/
def handleSceneUpdate (st : SState) (sid : String) (m : SceneMsg)
    (saveFails : Bool) : List Ev × SState :=
  match lookupRoomOf st sid with
  | none => ([.errorToSender "Not in a room"], st)
  | some roomId =>
      match sanitizeSceneMsg m with
      | .error e => ([.errorToSender e], st)
      | .ok m1 =>
          let evs := [Ev.sceneUpdateBroadcast roomId m1.elements m1.appState m1.files]
          if saveFails then (evs, st) else (evs, storeUpdateElements st roomId m1)

/-- The incremental-update socket handler: an unjoined sender gets a
'Not in a room' error; the delta is applied server-side and then
relayed verbatim to the other room members; a store failure is
reported to the sender as an error event and nothing is relayed. -/
def handleIncrementalUpdate (st : SState) (sid : String) (u : IncrUpdates) :
    List Ev × SState :=
  match lookupRoomOf st sid with
  | none => ([.errorToSender "Not in a room"], st)
  | some roomId =>
      match storeIncrementalUpdate st roomId u with
      | some st1 => ([.incrementalUpdateBroadcast roomId u], st1)
      | none => ([.errorToSender "ValidationError"], st)

/-- The pointer-update handler: silently dropped when the sender is in
no room; otherwise the targeted atomic pointer write runs and the
pointer is relayed (errors in this path are swallowed). -/
def handlePointerUpdate (st : SState) (sid : String) (p : JsObj) :
    List Ev × SState :=
  match lookupRoomOf st sid with
  | none => ([], st)
  | some roomId =>
      let st1 :=
        match lookupRoom st roomId with
        | some room =>
            let room1 : Room :=
              { room with activeUsers := updateFirstPointer room.activeUsers sid p }
            { st with rooms := setAssocRoom st.rooms roomId room1 }
        | none => st
      ([.pointerUpdateBroadcast roomId sid p], st1)

/-- The idle-status handler: silently dropped when the sender is in no
room; otherwise relayed with no store access. -/
def handleIdleStatus (st : SState) (sid : String) (idle : Bool) :
    List Ev × SState :=
  match lookupRoomOf st sid with
  | none => ([], st)
  | some roomId => ([.idleStatusBroadcast roomId sid idle], st)

/-- handleLeaveRoom: a no-op for an unjoined connection; otherwise
remove the presence entry (a missing room is a null no-op), drop the
membership, and notify the others; a store failure is caught and
leaves membership and events untouched. -/
def handleLeaveRoom (st : SState) (sid : String) : List Ev × SState :=
  match lookupRoomOf st sid with
  | none => ([], st)
  | some roomId =>
      match lookupRoom st roomId with
      | none =>
          ([.userLeftBroadcast roomId sid],
           { st with socketRoomMap := st.socketRoomMap.filter (fun q => q.1 != sid) })
      | some room =>
          match roomSave (Room.removeUser room sid) with
          | some r' =>
              ([.userLeftBroadcast roomId sid],
               { st with
                  rooms := setAssocRoom st.rooms roomId r',
                  socketRoomMap := st.socketRoomMap.filter (fun q => q.1 != sid) })
          | none => ([], st)

/-- A join-room payload after soft validation: the room id together
with the user's username and color fields (missing fields are
undefined). -/
structure JoinMsg where
  roomId : String
  username : JsStr
  color : JsStr
deriving DecidableEq

/-- The join-room handler: leave any prior room, record the socket
room membership, load or create the room, push the presence entry and
save.  A rejected save is caught: an error event is emitted and
neither scene-init nor user-joined is sent (the membership was already
recorded before the failure).  On success the sender gets scene-init
built from the saved document and the others get user-joined carrying
the raw user fields. -/
def handleJoinRoom (st : SState) (sid : String) (msg : JoinMsg) :
    List Ev × SState :=
  let lv := handleLeaveRoom st sid
  let st1 : SState :=
    { lv.2 with socketRoomMap := setAssocStr lv.2.socketRoomMap sid msg.roomId }
  let room := (lookupRoom st1 msg.roomId).getD (newRoom msg.roomId)
  let room1 := Room.addUser room sid msg.username msg.color
  match roomSave room1 with
  | some r' =>
      (lv.1 ++
        [Ev.sceneInitToSender r'.elements r'.appState
          (r'.activeUsers.map (fun u => (u.socketId, u.username, u.color))),
         Ev.userJoinedBroadcast msg.roomId sid msg.username msg.color],
       { st1 with rooms := setAssocRoom st1.rooms msg.roomId r' })
  | none => (lv.1 ++ [Ev.errorToSender "ValidationError"], st1)

theorem jget_jset_self (o : JsObj) (k : String) (v : JsVal) :
    jget (jset o k v) k = v := by
  induction o with
  | nil => simp [jset, jget]
  | cons p rest ih =>
      by_cases h : p.1 = k
      · simp [jset, jget, h]
      · simp [jset, jget, h, ih]

theorem jget_jset_ne (o : JsObj) (k k' : String) (v : JsVal) (h : k' ≠ k) :
    jget (jset o k v) k' = jget o k' := by
  induction o with
  | nil => simp [jset, jget, Ne.symm h]
  | cons p rest ih =>
      by_cases hp : p.1 = k
      · have : ¬ (k = k') := fun hk => h hk.symm
        simp [jset, jget, hp, this]
      · by_cases hp' : p.1 = k'
        · simp [jset, jget, hp, hp', h]
        · simp [jset, jget, hp, hp', ih]

theorem jhas_jset_self (o : JsObj) (k : String) (v : JsVal) :
    jhas (jset o k v) k = true := by
  induction o with
  | nil => simp [jset, jhas]
  | cons p rest ih =>
      by_cases h : p.1 = k
      · simp [jset, jhas, h]
      · simp [jset, jhas, h, ih]

theorem jhas_jset_ne (o : JsObj) (k k' : String) (v : JsVal) (h : k' ≠ k) :
    jhas (jset o k v) k' = jhas o k' := by
  induction o with
  | nil => simp [jset, jhas, Ne.symm h]
  | cons p rest ih =>
      by_cases hp : p.1 = k
      · simp [jset, jhas, hp]
      · simp [jset, jhas, hp, ih]

theorem jset_jget_self (o : JsObj) (k : String) (h : jhas o k = true) :
    jset o k (jget o k) = o := by
  induction o with
  | nil => simp [jhas] at h
  | cons p rest ih =>
      obtain ⟨p1, p2⟩ := p
      by_cases hp : p1 = k
      · subst hp
        simp [jset, jget]
      · simp [jhas, hp] at h
        simp [jset, jget, hp, ih h]

theorem jget_of_not_jhas (o : JsObj) (k : String) (h : jhas o k = false) :
    jget o k = .undefined := by
  induction o with
  | nil => rfl
  | cons p rest ih =>
      simp [jhas] at h
      simp [jget, h.1, ih h.2]

theorem jget_append (xs ys : JsObj) (k : String) :
    jget (xs ++ ys) k = if jhas xs k then jget xs k else jget ys k := by
  induction xs with
  | nil => simp [jget, jhas]
  | cons p rest ih =>
      by_cases hp : p.1 = k
      · simp [jget, jhas, hp]
      · simp [jget, jhas, hp, ih]

theorem jhas_jmerge_map (a b : JsObj) (k : String) :
    jhas (a.map (fun p => if jhas b p.1 then (p.1, jget b p.1) else p)) k
      = jhas a k := by
  induction a with
  | nil => simp [jhas]
  | cons p rest ih =>
      by_cases hb : jhas b p.1
      · simp [jhas, hb, ih]
      · simp [jhas, hb, ih]

theorem jget_jmerge_map (a b : JsObj) (k : String) (h : jhas a k = true) :
    jget (a.map (fun p => if jhas b p.1 then (p.1, jget b p.1) else p)) k
      = if jhas b k then jget b k else jget a k := by
  induction a with
  | nil => simp [jhas] at h
  | cons p rest ih =>
      by_cases hp : p.1 = k
      · subst hp
        by_cases hb : jhas b p.1
        · simp [jget, hb]
        · simp [jget, hb]
      · simp [jhas, hp] at h
        by_cases hb : jhas b p.1
        · simp [jget, hp, hb, ih h]
        · simp [jget, hp, hb, ih h]

theorem jget_filter_keys (b : JsObj) (P : String → Bool) (k : String) :
    jget (b.filter (fun q => P q.1)) k = if P k then jget b k else .undefined := by
  induction b with
  | nil => simp [jget]
  | cons q rest ih =>
      by_cases hq : P q.1
      · by_cases hk : q.1 = k
        · subst hk
          simp [List.filter_cons, hq, jget]
        · simp [List.filter_cons, hq, jget, hk, ih]
      · by_cases hk : q.1 = k
        · subst hk
          simp [List.filter_cons, hq, ih]
        · simp [List.filter_cons, hq, jget, hk, ih]

theorem jget_jmerge (a b : JsObj) (k : String) :
    jget (jmerge a b) k = if jhas b k then jget b k else jget a k := by
  unfold jmerge
  rw [jget_append, jhas_jmerge_map]
  by_cases ha : jhas a k
  · rw [if_pos ha, jget_jmerge_map a b k ha]
  · rw [if_neg ha]
    have hfil := jget_filter_keys b (fun s => !jhas a s) k
    simp only [] at hfil
    rw [hfil]
    have ha' : jhas a k = false := by simpa using ha
    simp [ha']
    by_cases hb : jhas b k
    · simp [hb]
    · simp [hb, jget_of_not_jhas a k ha', jget_of_not_jhas b k (by simpa using hb)]

theorem presaveZoom_good (z : JsVal) :
    jsIsNaN (presaveZoom z) = false ∧ jsLe0 (presaveZoom z) = false := by
  unfold presaveZoom
  by_cases ht : jsTruthy z = true
  · simp only [ht, if_true]
    by_cases hc : (jsIsNaN (if jsTypeofObject z then objValue z else z)
        || jsLe0 (if jsTypeofObject z then objValue z else z)) = true
    · simp only [hc, if_true]
      constructor
      · rfl
      · simp [jsLe0]
    · simp only [hc, if_false]
      simp only [Bool.or_eq_true] at hc
      push_neg at hc
      exact ⟨by simpa using hc.1, by simpa using hc.2⟩
  · simp only [ht, if_false]
    constructor
    · rfl
    · simp [jsLe0]

theorem presaveZoom_vobj_fix (w : JsVal) (h1 : jsIsNaN w = false)
    (h2 : jsLe0 w = false) : presaveZoom (.vobj w) = w := by
  simp [presaveZoom, jsTruthy, jsTypeofObject, objValue, h1, h2]

theorem fixNaNProp_jget_ne (o : JsObj) (k k' : String) (h : k' ≠ k) :
    jget (fixNaNProp o k) k' = jget o k' := by
  unfold fixNaNProp
  by_cases hn : jsIsNaN (jget o k) = true
  · simp [hn, jget_jset_ne o k k' _ h]
  · simp [hn]

theorem fixNaNProp_jhas_ne (o : JsObj) (k k' : String) (h : k' ≠ k) :
    jhas (fixNaNProp o k) k' = jhas o k' := by
  unfold fixNaNProp
  by_cases hn : jsIsNaN (jget o k) = true
  · simp [hn, jhas_jset_ne o k k' _ h]
  · simp [hn]

theorem fixNaNProp_isNaN (o : JsObj) (k : String) :
    jsIsNaN (jget (fixNaNProp o k) k) = false := by
  unfold fixNaNProp
  by_cases hn : jsIsNaN (jget o k) = true
  · rw [if_pos hn, jget_jset_self]
    rfl
  · rw [if_neg hn]
    simpa using hn

theorem fixNaNProp_id (o : JsObj) (k : String)
    (h : jsIsNaN (jget o k) = false) : fixNaNProp o k = o := by
  simp [fixNaNProp, h]

theorem sanitizeChain_isNaN (p : JsObj) (g : String)
    (hg : g = "x" ∨ g = "y" ∨ g = "width" ∨ g = "height") :
    jsIsNaN (jget
      (fixNaNProp (fixNaNProp (fixNaNProp (fixNaNProp p "x") "y") "width") "height")
      g) = false := by
  rcases hg with h | h | h | h
  · subst h
    rw [fixNaNProp_jget_ne _ _ _ (by decide), fixNaNProp_jget_ne _ _ _ (by decide),
        fixNaNProp_jget_ne _ _ _ (by decide)]
    exact fixNaNProp_isNaN _ _
  · subst h
    rw [fixNaNProp_jget_ne _ _ _ (by decide), fixNaNProp_jget_ne _ _ _ (by decide)]
    exact fixNaNProp_isNaN _ _
  · subst h
    rw [fixNaNProp_jget_ne _ _ _ (by decide)]
    exact fixNaNProp_isNaN _ _
  · subst h
    exact fixNaNProp_isNaN _ _

theorem sanitizeElement_idem (e : Element) :
    sanitizeElement (sanitizeElement e) = sanitizeElement e := by
  unfold sanitizeElement
  congr 1
  rw [fixNaNProp_id _ _ (sanitizeChain_isNaN _ _ (by simp)),
      fixNaNProp_id _ _ (sanitizeChain_isNaN _ _ (by simp)),
      fixNaNProp_id _ _ (sanitizeChain_isNaN _ _ (by simp)),
      fixNaNProp_id _ _ (sanitizeChain_isNaN _ _ (by simp))]

theorem safeZoom_good (v : JsVal) :
    jsIsNaN (if jsIsNaN v || jsLe0 v then JsVal.num 1 else v) = false ∧
    jsLe0 (if jsIsNaN v || jsLe0 v then JsVal.num 1 else v) = false := by
  by_cases hc : (jsIsNaN v || jsLe0 v) = true
  · rw [if_pos hc]
    constructor
    · rfl
    · simp [jsLe0]
  · rw [if_neg hc]
    simp only [Bool.or_eq_true] at hc
    push_neg at hc
    exact ⟨by simpa using hc.1, by simpa using hc.2⟩

theorem sanitizeAppState_fixed (b : JsObj) (w : JsVal)
    (hz : jget b "zoom" = .vobj w)
    (h1 : jsIsNaN w = false) (h2 : jsLe0 w = false)
    (hh : jhas b "zoom" = true)
    (hsx : jsIsNaN (jget b "scrollX") = false)
    (hsy : jsIsNaN (jget b "scrollY") = false) :
    sanitizeAppState b = b := by
  unfold sanitizeAppState
  rw [hz, presaveZoom_vobj_fix w h1 h2, ← hz, jset_jget_self b "zoom" hh,
      fixNaNProp_id b "scrollX" hsx, fixNaNProp_id b "scrollY" hsy]

theorem sanitizeAppState_idem (a : JsObj) :
    sanitizeAppState (sanitizeAppState a) = sanitizeAppState a := by
  apply sanitizeAppState_fixed _ (presaveZoom (jget a "zoom"))
  · unfold sanitizeAppState
    rw [fixNaNProp_jget_ne _ _ _ (by decide), fixNaNProp_jget_ne _ _ _ (by decide),
        jget_jset_self]
  · exact (presaveZoom_good _).1
  · exact (presaveZoom_good _).2
  · unfold sanitizeAppState
    rw [fixNaNProp_jhas_ne _ _ _ (by decide), fixNaNProp_jhas_ne _ _ _ (by decide),
        jhas_jset_self]
  · unfold sanitizeAppState
    rw [fixNaNProp_jget_ne _ _ _ (by decide)]
    exact fixNaNProp_isNaN _ _
  · unfold sanitizeAppState
    exact fixNaNProp_isNaN _ _

theorem preSave_idem (r : Room) : preSave (preSave r) = preSave r := by
  unfold preSave
  simp only [sanitizeAppState_idem, List.map_map]
  congr 1
  apply List.map_congr_left
  intro e _
  simpa [Function.comp] using sanitizeElement_idem e

theorem socketSanitizeApp_shape (a b : JsObj) (h : socketSanitizeApp a = .ok b) :
    ∃ w, jsIsNaN w = false ∧ jsLe0 w = false ∧
      b = fixNaNProp (fixNaNProp (jset a "zoom" (.vobj w)) "scrollX") "scrollY" := by
  unfold socketSanitizeApp at h
  cases hv : (if jsTypeofObject (jget a "zoom") then jsValueProp (jget a "zoom")
      else .ok (jget a "zoom")) with
  | error e =>
      rw [hv] at h
      exact absurd h (by simp)
  | ok z =>
      rw [hv] at h
      simp only [] at h
      refine ⟨if jsIsNaN z || jsLe0 z then JsVal.num 1 else z,
        (safeZoom_good z).1, (safeZoom_good z).2, ?_⟩
      cases h
      rfl

theorem socketSanitizeApp_fixed (b : JsObj) (w : JsVal)
    (hz : jget b "zoom" = .vobj w)
    (h1 : jsIsNaN w = false) (h2 : jsLe0 w = false)
    (hh : jhas b "zoom" = true)
    (hsx : jsIsNaN (jget b "scrollX") = false)
    (hsy : jsIsNaN (jget b "scrollY") = false) :
    socketSanitizeApp b = .ok b := by
  unfold socketSanitizeApp
  rw [hz]
  simp only [jsTypeofObject, jsValueProp, if_true]
  rw [h1, h2]
  simp only [Bool.or_self, Bool.false_eq_true, if_false]
  rw [← hz, jset_jget_self b "zoom" hh, fixNaNProp_id b "scrollX" hsx,
      fixNaNProp_id b "scrollY" hsy]

theorem socketSanitizeApp_idem (a b : JsObj) (h : socketSanitizeApp a = .ok b) :
    socketSanitizeApp b = .ok b := by
  obtain ⟨w, h1, h2, rfl⟩ := socketSanitizeApp_shape a b h
  apply socketSanitizeApp_fixed _ w
  · rw [fixNaNProp_jget_ne _ _ _ (by decide), fixNaNProp_jget_ne _ _ _ (by decide),
        jget_jset_self]
  · exact h1
  · exact h2
  · rw [fixNaNProp_jhas_ne _ _ _ (by decide), fixNaNProp_jhas_ne _ _ _ (by decide),
        jhas_jset_self]
  · rw [fixNaNProp_jget_ne _ _ _ (by decide)]
    exact fixNaNProp_isNaN _ _
  · exact fixNaNProp_isNaN _ _

theorem applyUpdatedJs_no_match (els : List Element) (upd : Element)
    (h : ∀ el ∈ els, el.id ≠ upd.id) : applyUpdatedJs els upd = .ok els := by
  unfold applyUpdatedJs
  have hnone : els.findIdx? (fun el => el.id == upd.id) = none :=
    List.findIdx?_eq_none_iff.mpr (fun el hel => by simpa using h el hel)
  rw [hnone]

theorem applyUpdatedSpec_no_match (els : List Element) (upd : Element)
    (h : ∀ el ∈ els, el.id ≠ upd.id) : applyUpdatedSpec els upd = els := by
  induction els with
  | nil => rfl
  | cons el rest ih =>
      unfold applyUpdatedSpec
      rw [if_neg (h el (List.mem_cons_self _ _)),
          ih (fun e he => h e (List.mem_cons_of_mem _ he))]

theorem foldlM_applyUpdated_no_match (updated els : List Element)
    (h : ∀ upd ∈ updated, ∀ el ∈ els, el.id ≠ upd.id) :
    updated.foldlM applyUpdatedJs els = .ok els := by
  induction updated with
  | nil => rfl
  | cons upd rest ih =>
      rw [List.foldlM_cons,
          applyUpdatedJs_no_match els upd (h upd (List.mem_cons_self _ _))]
      show (pure els >>= fun b => rest.foldlM applyUpdatedJs b) = .ok els
      rw [pure_bind]
      exact ih (fun u hu el hel => h u (List.mem_cons_of_mem _ hu) el hel)

theorem foldl_applyUpdatedSpec_no_match (updated els : List Element)
    (h : ∀ upd ∈ updated, ∀ el ∈ els, el.id ≠ upd.id) :
    updated.foldl applyUpdatedSpec els = els := by
  induction updated with
  | nil => rfl
  | cons upd rest ih =>
      rw [List.foldl_cons,
          applyUpdatedSpec_no_match els upd (h upd (List.mem_cons_self _ _))]
      exact ih (fun u hu el hel => h u (List.mem_cons_of_mem _ hu) el hel)

theorem guard_filter_deleted (els : List Element) (deleted : List String) :
    (if deleted.length > 0 then els.filter (fun el => !deleted.contains el.id)
     else els)
      = els.filter (fun el => !deleted.contains el.id) := by
  by_cases hd : deleted.length > 0
  · rw [if_pos hd]
  · rw [if_neg hd]
    have hd0 : deleted = [] := List.length_eq_zero.mp (by omega)
    subst hd0
    simp

theorem guard_append_added (els : List Element) (added : List Element) :
    (if added.length > 0 then els ++ added else els) = els ++ added := by
  by_cases ha : added.length > 0
  · rw [if_pos ha]
  · rw [if_neg ha]
    have h0 : added = [] := List.length_eq_zero.mp (by omega)
    subst h0
    simp

theorem incrementalUpdate_no_match_ok (r : Room) (u : IncrUpdates)
    (h : ∀ upd ∈ u.updated, ∀ el ∈ r.elements.filter
        (fun el => !u.deleted.contains el.id), el.id ≠ upd.id) :
    Room.incrementalUpdate r u = .ok (incrementalUpdateClaim r u) := by
  simp only [Room.incrementalUpdate, incrementalUpdateClaim]
  rw [guard_filter_deleted]
  have hstep : (if u.updated.length > 0 then
        u.updated.foldlM applyUpdatedJs
          (r.elements.filter (fun el => !u.deleted.contains el.id))
      else .ok (r.elements.filter (fun el => !u.deleted.contains el.id)) :
        Except String (List Element))
      = .ok (r.elements.filter (fun el => !u.deleted.contains el.id)) := by
    by_cases hu : u.updated.length > 0
    · rw [if_pos hu]
      exact foldlM_applyUpdated_no_match _ _ h
    · rw [if_neg hu]
  simp only [hstep]
  rw [guard_append_added, foldl_applyUpdatedSpec_no_match _ _ h]

/-- C1 (code bug): the claim and the spec describe the intended
field-merge, but the room schema stores elements as a Mixed array of
plain objects, so this.elements[index].toObject() throws a TypeError
on every matched updated entry: at the failing input the batch errors
out before the version increment and the save, while a batch whose
updated entries match no stored element behaves exactly as the claim
describes (deletions, unmatched-update no-ops, appends, one version
increment). -/
theorem C1_incrementalUpdate_toObject_bug :
    (Room.incrementalUpdate
        { newRoom "demo" with elements := [⟨"e1", [("x", JsVal.num 1)]⟩] }
        ⟨[], [⟨"e1", [("x", JsVal.num 99)]⟩], []⟩
      = .error "this.elements[index].toObject is not a function")
    ∧ (∀ (r : Room) (u : IncrUpdates),
        (∀ upd ∈ u.updated, ∀ el ∈ r.elements.filter
            (fun el => !u.deleted.contains el.id), el.id ≠ upd.id) →
        Room.incrementalUpdate r u = .ok (incrementalUpdateClaim r u)) :=
  ⟨rfl, incrementalUpdate_no_match_ok⟩

/-- Witness for C1 at a batch whose updated entry matches no stored
element. -/
theorem C1_incrementalUpdate_toObject_bug_witness :
    Room.incrementalUpdate (newRoom "demo")
        ⟨[⟨"e2", []⟩], [⟨"e9", []⟩], ["gone"]⟩
      = .ok (incrementalUpdateClaim (newRoom "demo")
          ⟨[⟨"e2", []⟩], [⟨"e9", []⟩], ["gone"]⟩) :=
  C1_incrementalUpdate_toObject_bug.2 (newRoom "demo")
    ⟨[⟨"e2", []⟩], [⟨"e9", []⟩], ["gone"]⟩
    (by intro upd hu el hel; simp [newRoom] at hel)

theorem preSave_version (r : Room) : (preSave r).version = r.version := rfl

theorem roomSave_version (r r' : Room) (h : roomSave r = some r') :
    r'.version = r.version := by
  unfold roomSave at h
  by_cases hv : usersValid r = true
  · rw [if_pos (by simpa [usersValid] using hv)] at h
    cases h
    rfl
  · rw [if_neg (by simpa [usersValid] using hv)] at h
    cases h

theorem addUser_version (r : Room) (sid : String) (un c : JsStr) :
    (Room.addUser r sid un c).version = r.version := by
  unfold Room.addUser
  split <;> rfl

theorem removeUser_version (r : Room) (sid : String) :
    (Room.removeUser r sid).version = r.version := rfl

theorem incrementalUpdate_ok_elim (r : Room) (u : IncrUpdates) (r1 : Room)
    (h : Room.incrementalUpdate r u = .ok r1) :
    r1.version = r.version + 1 ∧ r1.activeUsers = r.activeUsers := by
  simp only [Room.incrementalUpdate] at h
  split at h
  · cases h
  · cases h
    exact ⟨rfl, rfl⟩

theorem updateElementsService_version (r : Room) (els : List Element)
    (app files : Option JsObj) :
    (Room.updateElementsService r els app files).version = r.version + 1 := by
  unfold Room.updateElementsService
  cases app <;> cases files <;> rfl

theorem usersValid_updateElementsService (r : Room) (els : List Element)
    (app files : Option JsObj) :
    usersValid (Room.updateElementsService r els app files) = usersValid r := by
  unfold Room.updateElementsService usersValid
  cases app <;> cases files <;> rfl

theorem roomSave_of_valid (r : Room) (h : usersValid r = true) :
    roomSave r = some (preSave r) := by
  unfold roomSave
  rw [if_pos (by simpa [usersValid] using h)]

theorem applyOp_version_eq_of_not_scene (r : Room) (op : StoreOp)
    (h : op.isSceneMutation = false) : (applyOp r op).version = r.version := by
  cases op with
  | createExisting => rfl
  | getRoom => rfl
  | updateElements els app files => simp [StoreOp.isSceneMutation] at h
  | incrUpdate u => simp [StoreOp.isSceneMutation] at h
  | addUser sid un c =>
      show ((roomSave (Room.addUser r sid un c)).getD r).version = r.version
      cases hs : roomSave (Room.addUser r sid un c) with
      | none => rfl
      | some r' =>
          simp only [Option.getD_some]
          rw [roomSave_version _ _ hs, addUser_version]
  | removeUser sid =>
      show ((roomSave (Room.removeUser r sid)).getD r).version = r.version
      cases hs : roomSave (Room.removeUser r sid) with
      | none => rfl
      | some r' =>
          simp only [Option.getD_some]
          rw [roomSave_version _ _ hs, removeUser_version]
  | pointerUpdate sid p => rfl

theorem applyOp_updateElements_version (r : Room) (els : List Element)
    (app files : Option JsObj) (hv : usersValid r = true) :
    (applyOp r (.updateElements els app files)).version = r.version + 1 := by
  show ((roomSave (Room.updateElementsService r els app files)).getD r).version
    = r.version + 1
  rw [roomSave_of_valid _ (by rw [usersValid_updateElementsService]; exact hv)]
  simp only [Option.getD_some]
  rw [preSave_version, updateElementsService_version]

theorem applyOp_incr_ok_version (r : Room) (u : IncrUpdates) (r1 : Room)
    (hv : usersValid r = true) (hok : Room.incrementalUpdate r u = .ok r1) :
    (applyOp r (.incrUpdate u)).version = r.version + 1 := by
  have hop : applyOp r (.incrUpdate u) = (roomSave r1).getD r := by
    show (match Room.incrementalUpdate r u with
          | .ok r2 => (roomSave r2).getD r
          | .error _ => r) = (roomSave r1).getD r
    simp only [hok]
  obtain ⟨hver, husers⟩ := incrementalUpdate_ok_elim r u r1 hok
  have hv1 : usersValid r1 = true := by
    unfold usersValid
    rw [husers]
    exact hv
  rw [hop, roomSave_of_valid _ hv1]
  simp only [Option.getD_some]
  rw [preSave_version, hver]

theorem applyOp_incr_error_version (r : Room) (u : IncrUpdates) (e : String)
    (herr : Room.incrementalUpdate r u = .error e) :
    (applyOp r (.incrUpdate u)).version = r.version := by
  have hop : applyOp r (.incrUpdate u) = r := by
    show (match Room.incrementalUpdate r u with
          | .ok r2 => (roomSave r2).getD r
          | .error _ => r) = r
    simp only [herr]
  rw [hop]

theorem applyOp_version_le (r : Room) (op : StoreOp) :
    r.version ≤ (applyOp r op).version := by
  cases hscene : op.isSceneMutation with
  | false => rw [applyOp_version_eq_of_not_scene r op hscene]
  | true =>
      cases op with
      | updateElements els app files =>
          show r.version
            ≤ ((roomSave (Room.updateElementsService r els app files)).getD r).version
          cases hs : roomSave (Room.updateElementsService r els app files) with
          | none => simp
          | some r' =>
              simp only [Option.getD_some]
              rw [roomSave_version _ _ hs, updateElementsService_version]
              omega
      | incrUpdate u =>
          show r.version ≤ (match Room.incrementalUpdate r u with
              | .ok r2 => (roomSave r2).getD r
              | .error _ => r).version
          cases hiu : Room.incrementalUpdate r u with
          | error e =>
              show r.version ≤ r.version
              exact le_refl _
          | ok r1 =>
              show r.version ≤ ((roomSave r1).getD r).version
              cases hs : roomSave r1 with
              | none => simp
              | some r2 =>
                  simp only [Option.getD_some]
                  rw [roomSave_version _ _ hs,
                      (incrementalUpdate_ok_elim r u r1 hiu).1]
                  omega
      | createExisting => simp [StoreOp.isSceneMutation] at hscene
      | getRoom => simp [StoreOp.isSceneMutation] at hscene
      | addUser sid un c => simp [StoreOp.isSceneMutation] at hscene
      | removeUser sid => simp [StoreOp.isSceneMutation] at hscene
      | pointerUpdate sid p => simp [StoreOp.isSceneMutation] at hscene

theorem foldl_applyOp_version_le (r : Room) (ops : List StoreOp) :
    r.version ≤ (ops.foldl applyOp r).version := by
  induction ops generalizing r with
  | nil => simp
  | cons op rest ih =>
      rw [List.foldl_cons]
      exact le_trans (applyOp_version_le r op) (ih _)

/-- C4: while a room exists, its version never decreases and never
resets under any sequence of Room State Store operations; every
accepted scene mutation — a full element replace on a schema-valid
room, or an incremental batch whose method call does not throw —
increases it by exactly one, and every other operation, including an
incremental batch aborted by the TypeError on a matched updated entry,
leaves it unchanged. -/
theorem C4_version_never_decreases :
    (∀ (r : Room) (ops : List StoreOp),
      r.version ≤ (ops.foldl applyOp r).version)
    ∧ (∀ (r : Room) (op : StoreOp), op.isSceneMutation = false →
      (applyOp r op).version = r.version)
    ∧ (∀ (r : Room) (els : List Element) (app files : Option JsObj),
      usersValid r = true →
      (applyOp r (.updateElements els app files)).version = r.version + 1)
    ∧ (∀ (r : Room) (u : IncrUpdates) (r1 : Room), usersValid r = true →
      Room.incrementalUpdate r u = .ok r1 →
      (applyOp r (.incrUpdate u)).version = r.version + 1)
    ∧ (∀ (r : Room) (u : IncrUpdates) (e : String),
      Room.incrementalUpdate r u = .error e →
      (applyOp r (.incrUpdate u)).version = r.version) :=
  ⟨foldl_applyOp_version_le, applyOp_version_eq_of_not_scene,
   fun r els app files hv => applyOp_updateElements_version r els app files hv,
   applyOp_incr_ok_version, applyOp_incr_error_version⟩

/-- Witness for C4 at a concrete room and operations, including an
incremental batch aborted by the TypeError. -/
theorem C4_version_never_decreases_witness :
    ((newRoom "demo").version
      ≤ ([StoreOp.getRoom, StoreOp.incrUpdate ⟨[], [], []⟩].foldl applyOp
          (newRoom "demo")).version)
    ∧ ((applyOp (newRoom "demo") StoreOp.getRoom).version
      = (newRoom "demo").version)
    ∧ ((applyOp (newRoom "demo") (StoreOp.updateElements [] none none)).version
      = (newRoom "demo").version + 1)
    ∧ ((applyOp (newRoom "demo") (StoreOp.incrUpdate ⟨[], [], []⟩)).version
      = (newRoom "demo").version + 1)
    ∧ ((applyOp { newRoom "demo" with elements := [⟨"e1", [("x", JsVal.num 1)]⟩] }
          (StoreOp.incrUpdate ⟨[], [⟨"e1", [("x", JsVal.num 99)]⟩], []⟩)).version
      = ({ newRoom "demo" with
            elements := [⟨"e1", [("x", JsVal.num 1)]⟩] } : Room).version) :=
  ⟨C4_version_never_decreases.1 (newRoom "demo") _,
   C4_version_never_decreases.2.1 (newRoom "demo") StoreOp.getRoom rfl,
   C4_version_never_decreases.2.2.1 (newRoom "demo") [] none none rfl,
   C4_version_never_decreases.2.2.2.1 (newRoom "demo") ⟨[], [], []⟩
     { newRoom "demo" with version := (newRoom "demo").version + 1 } rfl rfl,
   C4_version_never_decreases.2.2.2.2
     { newRoom "demo" with elements := [⟨"e1", [("x", JsVal.num 1)]⟩] }
     ⟨[], [⟨"e1", [("x", JsVal.num 99)]⟩], []⟩
     "this.elements[index].toObject is not a function" rfl⟩

/-- C7: presence operations are idempotent at the connection level:
adding the same connection id twice yields exactly one presence entry
for it, and removing a connection that never joined leaves the
activeUsers list unchanged. -/
theorem C7_presence_idempotent (r : Room) (sid : String) (un c : JsStr)
    (h : r.activeUsers.countP (fun u => u.socketId == sid) = 0) :
    ((Room.addUser (Room.addUser r sid un c) sid un c).activeUsers.countP
        (fun u => u.socketId == sid) = 1)
    ∧ (Room.removeUser r sid).activeUsers = r.activeUsers := by
  have hfalse : ∀ u ∈ r.activeUsers, (u.socketId == sid) = false := by
    intro u hu
    simpa using List.countP_eq_zero.mp h u hu
  have hany : (r.activeUsers.any (fun u => u.socketId == sid)) = false := by
    rw [List.any_eq_false]
    intro u hu
    simp [hfalse u hu]
  have h1 : Room.addUser r sid un c
      = { r with activeUsers := r.activeUsers ++
          [{ socketId := sid, username := castUsername un, color := c,
             pointer := [("x", .num 0), ("y", .num 0)] }] } := by
    unfold Room.addUser
    simp [hany]
  have hany2 : ((Room.addUser r sid un c).activeUsers.any
      (fun u => u.socketId == sid)) = true := by
    rw [h1]
    simp
  have h2 : Room.addUser (Room.addUser r sid un c) sid un c
      = Room.addUser r sid un c := by
    conv_lhs => rw [Room.addUser]
    rw [hany2]
    simp
  constructor
  · rw [h2, h1]
    simp only [List.countP_append]
    rw [h]
    simp [List.countP_cons]
  · show r.activeUsers.filter (fun u => u.socketId != sid) = r.activeUsers
    rw [List.filter_eq_self.mpr]
    intro u hu
    simp [bne, hfalse u hu]

/-- Witness for C7 at a fresh room and a concrete connection. -/
theorem C7_presence_idempotent_witness :
    ((Room.addUser (Room.addUser (newRoom "demo") "s1" (.str "A") (.str "#fff"))
        "s1" (.str "A") (.str "#fff")).activeUsers.countP
        (fun u => u.socketId == "s1") = 1)
    ∧ (Room.removeUser (newRoom "demo") "s1").activeUsers
        = (newRoom "demo").activeUsers :=
  C7_presence_idempotent (newRoom "demo") "s1" (.str "A") (.str "#fff") rfl

/-- C9: the validator is soft: it is a total function of its input
(never throws); when the schema reports an error it returns the
original input unchanged, and when the schema accepts it returns the
converted value; concretely, the invalid empty and missing roomId
inputs pass through unchanged. -/
theorem C9_validate_soft :
    (∀ (α : Type) (schema : JoiSchema α) (data : α) (m : String),
      schema data = .err m → validate schema data = data) ∧
    (∀ (α : Type) (schema : JoiSchema α) (data : α) (v : α),
      schema data = .ok v → validate schema data = v) ∧
    (validate roomIdSchemaJoi (some "") = some "") ∧
    (validate roomIdSchemaJoi none = none) := by
  refine ⟨?_, ?_, rfl, rfl⟩
  · intro α schema data m h
    unfold validate
    rw [h]
  · intro α schema data v h
    unfold validate
    rw [h]

/-- Witness for C9 at the concrete roomIdSchema. -/
theorem C9_validate_soft_witness :
    validate roomIdSchemaJoi none = none
    ∧ validate roomIdSchemaJoi (some "ok") = some "ok" :=
  ⟨C9_validate_soft.1 (Option String) roomIdSchemaJoi none "roomId is required" rfl,
   C9_validate_soft.2.1 (Option String) roomIdSchemaJoi (some "ok") (some "ok") rfl⟩

/-- C6: the scene-version function is order-independent: two scenes
with identical elements, regardless of array order, have the same
computed version. -/
theorem C6_computeVersion_order_independent (A B : List Element) (h : A.Perm B) :
    computeVersion A = computeVersion B := by
  unfold computeVersion
  exact List.Perm.sum_eq ((h.filter _).map _)

/-- Witness for C6 at two concrete two-element scenes. -/
theorem C6_computeVersion_order_independent_witness :
    computeVersion
      [⟨"b", [("version", .num 5)]⟩, ⟨"a", [("version", .num 3)]⟩]
      = computeVersion
      [⟨"a", [("version", .num 3)]⟩, ⟨"b", [("version", .num 5)]⟩] :=
  C6_computeVersion_order_independent _ _ (List.Perm.swap _ _ _)

/-- C5: sanitization is idempotent: applying the pre-save sanitizer
twice to a room, to an appState or to an element equals applying it
once, and the socket-side appState sanitization is a fixed point of
its own successful output. -/
theorem C5_sanitize_idempotent :
    (∀ r : Room, preSave (preSave r) = preSave r) ∧
    (∀ a : JsObj, sanitizeAppState (sanitizeAppState a) = sanitizeAppState a) ∧
    (∀ e : Element, sanitizeElement (sanitizeElement e) = sanitizeElement e) ∧
    (∀ a b : JsObj, socketSanitizeApp a = .ok b → socketSanitizeApp b = .ok b) :=
  ⟨preSave_idem, sanitizeAppState_idem, sanitizeElement_idem, socketSanitizeApp_idem⟩

/-- Witness for C5: the socket sanitizer output for a NaN zoom is its
own fixed point. -/
theorem C5_sanitize_idempotent_witness :
    socketSanitizeApp
      [("zoom", JsVal.vobj (.num 1)), ("scrollX", .num 0), ("scrollY", .num 0)]
      = .ok [("zoom", JsVal.vobj (.num 1)), ("scrollX", .num 0), ("scrollY", .num 0)] :=
  C5_sanitize_idempotent.2.2.2 [("zoom", JsVal.nan)] _ rfl

/-- C10: for a connection joined to no room, scene-update and
incremental-update emit an error event 'Not in a room' to the sender
with no broadcast and no room-state mutation, while pointer-update and
idle-status are silently dropped: no event at all, no mutation, no
broadcast. -/
theorem C10_not_in_room (st : SState) (sid : String) (m : SceneMsg)
    (u : IncrUpdates) (p : JsObj) (idle : Bool) (fails : Bool)
    (h : lookupRoomOf st sid = none) :
    handleSceneUpdate st sid m fails = ([.errorToSender "Not in a room"], st)
    ∧ handleIncrementalUpdate st sid u = ([.errorToSender "Not in a room"], st)
    ∧ handlePointerUpdate st sid p = ([], st)
    ∧ handleIdleStatus st sid idle = ([], st) := by
  refine ⟨?_, ?_, ?_, ?_⟩ <;>
    simp [handleSceneUpdate, handleIncrementalUpdate, handlePointerUpdate,
      handleIdleStatus, h]

/-- Witness for C10 at an empty server state. -/
theorem C10_not_in_room_witness :
    handleSceneUpdate ⟨[], []⟩ "s1" ⟨[], none, none⟩ true
        = ([.errorToSender "Not in a room"], ⟨[], []⟩)
    ∧ handleIncrementalUpdate ⟨[], []⟩ "s1" ⟨[], [], []⟩
        = ([.errorToSender "Not in a room"], ⟨[], []⟩)
    ∧ handlePointerUpdate ⟨[], []⟩ "s1" [] = ([], ⟨[], []⟩)
    ∧ handleIdleStatus ⟨[], []⟩ "s1" true = ([], ⟨[], []⟩) :=
  C10_not_in_room ⟨[], []⟩ "s1" ⟨[], none, none⟩ ⟨[], [], []⟩ [] true true rfl

/-- C2: a scene-update from a joined connection is broadcast to the
other room members unconditionally: the emitted events are a single
broadcast of the sanitized payload computed from the payload alone
(the handler consults no stored room state, so no version comparison
happens and a stale payload is never rejected), and the broadcast is
not gated on persistence: with a failing store write the same
broadcast is emitted, the store is left unchanged with no retry, and
no error reaches the sender. -/
theorem C2_scene_update_pure_relay (st st2 : SState) (sid roomId : String)
    (m m1 : SceneMsg) (fails : Bool)
    (h : lookupRoomOf st sid = some roomId)
    (hs : sanitizeSceneMsg m = .ok m1) :
    (handleSceneUpdate st sid m fails).1
      = [Ev.sceneUpdateBroadcast roomId m1.elements m1.appState m1.files]
    ∧ (handleSceneUpdate st sid m true).2 = st
    ∧ (lookupRoomOf st2 sid = some roomId →
        (handleSceneUpdate st2 sid m fails).1
          = (handleSceneUpdate st sid m fails).1) := by
  refine ⟨?_, ?_, ?_⟩
  · simp only [handleSceneUpdate, h, hs]
    cases fails <;> rfl
  · simp [handleSceneUpdate, h, hs]
  · intro h2
    simp only [handleSceneUpdate, h, h2, hs]
    cases fails <;> rfl

/-- Witness for C2: a stale empty payload against a room at version
99, with the store write failing. -/
theorem C2_scene_update_pure_relay_witness :
    (handleSceneUpdate
        ⟨[("s1", "demo")], [("demo", { newRoom "demo" with version := 99 })]⟩
        "s1" ⟨[], none, none⟩ true).1
      = [Ev.sceneUpdateBroadcast "demo" [] none none]
    ∧ (handleSceneUpdate
        ⟨[("s1", "demo")], [("demo", { newRoom "demo" with version := 99 })]⟩
        "s1" ⟨[], none, none⟩ true).2
      = ⟨[("s1", "demo")], [("demo", { newRoom "demo" with version := 99 })]⟩
    ∧ (handleSceneUpdate ⟨[("s1", "demo")], []⟩ "s1" ⟨[], none, none⟩ true).1
      = (handleSceneUpdate
          ⟨[("s1", "demo")], [("demo", { newRoom "demo" with version := 99 })]⟩
          "s1" ⟨[], none, none⟩ true).1 := by
  have h := C2_scene_update_pure_relay
    ⟨[("s1", "demo")], [("demo", { newRoom "demo" with version := 99 })]⟩
    ⟨[("s1", "demo")], []⟩ "s1" "demo" ⟨[], none, none⟩ ⟨[], none, none⟩ true
    rfl rfl
  exact ⟨h.1, h.2.1, h.2.2 rfl⟩

theorem fixNaNProp_jget_nan (o : JsObj) (k : String)
    (h : jsIsNaN (jget o k) = true) : jget (fixNaNProp o k) k = .num 0 := by
  unfold fixNaNProp
  rw [if_pos h, jget_jset_self]

theorem sanitizeAppState_zoom (a : JsObj) :
    jget (sanitizeAppState a) "zoom" = .vobj (presaveZoom (jget a "zoom")) := by
  unfold sanitizeAppState
  rw [fixNaNProp_jget_ne _ _ _ (by decide), fixNaNProp_jget_ne _ _ _ (by decide),
      jget_jset_self]

theorem presaveZoom_num (q : ℚ) :
    presaveZoom (.num q) = if q ≤ 0 then JsVal.num 1 else .num q := by
  by_cases h0 : q = 0
  · subst h0
    simp [presaveZoom, jsTruthy]
  · by_cases hle : q ≤ 0
    · simp [presaveZoom, jsTruthy, jsTypeofObject, jsIsNaN, jsLe0, h0, hle]
    · simp [presaveZoom, jsTruthy, jsTypeofObject, jsIsNaN, jsLe0, h0, hle]

theorem presaveZoom_vobj (v : JsVal) :
    presaveZoom (.vobj v) = if jsIsNaN v || jsLe0 v then JsVal.num 1 else v := by
  simp [presaveZoom, jsTruthy, jsTypeofObject, objValue]

theorem sanitizeAppState_scrollX_nan (a : JsObj)
    (h : jsIsNaN (jget a "scrollX") = true) :
    jget (sanitizeAppState a) "scrollX" = .num 0 := by
  unfold sanitizeAppState
  rw [fixNaNProp_jget_ne _ _ _ (by decide)]
  apply fixNaNProp_jget_nan
  rw [jget_jset_ne _ _ _ _ (by decide)]
  exact h

theorem sanitizeAppState_scrollY_nan (a : JsObj)
    (h : jsIsNaN (jget a "scrollY") = true) :
    jget (sanitizeAppState a) "scrollY" = .num 0 := by
  unfold sanitizeAppState
  apply fixNaNProp_jget_nan
  rw [fixNaNProp_jget_ne _ _ _ (by decide), jget_jset_ne _ _ _ _ (by decide)]
  exact h

theorem sanitizeElement_geom_nan (e : Element) (g : String)
    (hg : g = "x" ∨ g = "y" ∨ g = "width" ∨ g = "height")
    (h : jsIsNaN (jget e.props g) = true) :
    jget (sanitizeElement e).props g = .num 0 := by
  rcases hg with h1 | h1 | h1 | h1
  · subst h1
    show jget (fixNaNProp (fixNaNProp (fixNaNProp (fixNaNProp e.props "x") "y")
        "width") "height") "x" = .num 0
    rw [fixNaNProp_jget_ne _ _ _ (by decide), fixNaNProp_jget_ne _ _ _ (by decide),
        fixNaNProp_jget_ne _ _ _ (by decide)]
    exact fixNaNProp_jget_nan _ _ h
  · subst h1
    show jget (fixNaNProp (fixNaNProp (fixNaNProp (fixNaNProp e.props "x") "y")
        "width") "height") "y" = .num 0
    rw [fixNaNProp_jget_ne _ _ _ (by decide), fixNaNProp_jget_ne _ _ _ (by decide)]
    apply fixNaNProp_jget_nan
    rw [fixNaNProp_jget_ne _ _ _ (by decide)]
    exact h
  · subst h1
    show jget (fixNaNProp (fixNaNProp (fixNaNProp (fixNaNProp e.props "x") "y")
        "width") "height") "width" = .num 0
    rw [fixNaNProp_jget_ne _ _ _ (by decide)]
    apply fixNaNProp_jget_nan
    rw [fixNaNProp_jget_ne _ _ _ (by decide), fixNaNProp_jget_ne _ _ _ (by decide)]
    exact h
  · subst h1
    show jget (fixNaNProp (fixNaNProp (fixNaNProp (fixNaNProp e.props "x") "y")
        "width") "height") "height" = .num 0
    apply fixNaNProp_jget_nan
    rw [fixNaNProp_jget_ne _ _ _ (by decide), fixNaNProp_jget_ne _ _ _ (by decide),
        fixNaNProp_jget_ne _ _ _ (by decide)]
    exact h

theorem updateElementsService_appState (r : Room) (els : List Element)
    (a : JsObj) (files : Option JsObj) :
    (Room.updateElementsService r els (some a) files).appState
      = jmerge r.appState a := by
  unfold Room.updateElementsService
  cases files <;> rfl

theorem findAssoc_set_self (l : List (String × Room)) (k : String) (r : Room) :
    ((setAssocRoom l k r).find? (fun p => p.1 == k)).map (·.2) = some r := by
  induction l with
  | nil => simp [setAssocRoom, List.find?]
  | cons p rest ih =>
      by_cases h : (p.1 == k) = true
      · simp [setAssocRoom, h, List.find?]
      · simp [setAssocRoom, h, List.find?, ih]

theorem lookupRoom_setAssoc_self (st : SState) (roomId : String) (r : Room) :
    lookupRoom { st with rooms := setAssocRoom st.rooms roomId r } roomId
      = some r := by
  unfold lookupRoom
  exact findAssoc_set_self _ _ _

theorem storedZoom_after_scene_update (st : SState) (sid roomId : String)
    (m : SceneMsg) (a : JsObj)
    (h : lookupRoomOf st sid = some roomId)
    (ha : m.appState = some a)
    (hz : jget a "zoom" = .nan)
    (hv : usersValid ((lookupRoom st roomId).getD (newRoom roomId)) = true) :
    (lookupRoom (handleSceneUpdate st sid m false).2 roomId).map
        (fun r => jget r.appState "zoom")
      = some (.vobj (.num 1)) := by
  obtain ⟨mels, mapp, mfiles⟩ := m
  simp only [] at ha
  subst ha
  have hsan : socketSanitizeApp a = .ok
      (fixNaNProp (fixNaNProp (jset a "zoom" (.vobj (.num 1))) "scrollX")
        "scrollY") := by
    unfold socketSanitizeApp
    rw [hz]
    rfl
  set a1 : JsObj :=
    fixNaNProp (fixNaNProp (jset a "zoom" (.vobj (.num 1))) "scrollX") "scrollY"
    with ha1def
  have ha1z : jget a1 "zoom" = .vobj (.num 1) := by
    rw [ha1def, fixNaNProp_jget_ne _ _ _ (by decide),
        fixNaNProp_jget_ne _ _ _ (by decide), jget_jset_self]
  have ha1h : jhas a1 "zoom" = true := by
    rw [ha1def, fixNaNProp_jhas_ne _ _ _ (by decide),
        fixNaNProp_jhas_ne _ _ _ (by decide), jhas_jset_self]
  have hmsg : sanitizeSceneMsg ⟨mels, some a, mfiles⟩
      = .ok ⟨mels, some a1, mfiles⟩ := by
    simp only [sanitizeSceneMsg, hsan, ha1def]
  set R : Room := (lookupRoom st roomId).getD (newRoom roomId) with hR
  set r2 : Room := Room.updateElementsService R mels (some a1) mfiles with hr2
  have hsave : roomSave r2 = some (preSave r2) := by
    apply roomSave_of_valid
    rw [hr2, usersValid_updateElementsService]
    exact hv
  have hstore : storeUpdateElements st roomId ⟨mels, some a1, mfiles⟩
      = { st with rooms := setAssocRoom st.rooms roomId (preSave r2) } := by
    unfold storeUpdateElements
    rw [← hR]
    simp only [← hr2, hsave]
  have hstep : handleSceneUpdate st sid ⟨mels, some a, mfiles⟩ false
      = ([Ev.sceneUpdateBroadcast roomId mels (some a1) mfiles],
         storeUpdateElements st roomId ⟨mels, some a1, mfiles⟩) := by
    simp only [handleSceneUpdate, h, hmsg]
    rfl
  rw [hstep, hstore, lookupRoom_setAssoc_self]
  simp only [Option.map_some']
  have happ : (preSave r2).appState = sanitizeAppState (jmerge R.appState a1) := by
    rw [hr2]
    show sanitizeAppState
        (Room.updateElementsService R mels (some a1) mfiles).appState
      = sanitizeAppState (jmerge R.appState a1)
    rw [updateElementsService_appState]
  rw [happ, sanitizeAppState_zoom, jget_jmerge, ha1h]
  simp only [if_true]
  rw [ha1z, presaveZoom_vobj]
  norm_num [jsIsNaN, jsLe0]

/-- C3: inbound scene writes are sanitized before persistence: a zoom
given as a bare number or as a value wrapper has its numeric value
extracted and is coerced to 1 when that value is not-a-number or at
most 0; not-a-number scrollX and scrollY are coerced to 0; each
element's not-a-number x, y, width, height are coerced to 0; and a
room stored after receiving a NaN zoom has appState.zoom equal to the
wrapper object of 1. -/
theorem C3_sanitization_rules :
    (∀ (a : JsObj) (q : ℚ), jget a "zoom" = .num q →
      jget (sanitizeAppState a) "zoom"
        = .vobj (if q ≤ 0 then JsVal.num 1 else .num q))
    ∧ (∀ (a : JsObj) (v : JsVal), jget a "zoom" = .vobj v →
      jget (sanitizeAppState a) "zoom"
        = .vobj (if jsIsNaN v || jsLe0 v then JsVal.num 1 else v))
    ∧ (∀ a : JsObj, jget a "zoom" = .nan →
      jget (sanitizeAppState a) "zoom" = .vobj (.num 1))
    ∧ (∀ a : JsObj, jsIsNaN (jget a "scrollX") = true →
      jget (sanitizeAppState a) "scrollX" = .num 0)
    ∧ (∀ a : JsObj, jsIsNaN (jget a "scrollY") = true →
      jget (sanitizeAppState a) "scrollY" = .num 0)
    ∧ (∀ (e : Element) (g : String),
      (g = "x" ∨ g = "y" ∨ g = "width" ∨ g = "height") →
      jsIsNaN (jget e.props g) = true →
      jget (sanitizeElement e).props g = .num 0)
    ∧ (∀ (st : SState) (sid roomId : String) (m : SceneMsg) (a : JsObj),
      lookupRoomOf st sid = some roomId → m.appState = some a →
      jget a "zoom" = .nan →
      usersValid ((lookupRoom st roomId).getD (newRoom roomId)) = true →
      (lookupRoom (handleSceneUpdate st sid m false).2 roomId).map
          (fun r => jget r.appState "zoom") = some (.vobj (.num 1))) := by
  refine ⟨?_, ?_, ?_, sanitizeAppState_scrollX_nan, sanitizeAppState_scrollY_nan,
    sanitizeElement_geom_nan, storedZoom_after_scene_update⟩
  · intro a q hq
    rw [sanitizeAppState_zoom, hq, presaveZoom_num]
  · intro a v hv
    rw [sanitizeAppState_zoom, hv, presaveZoom_vobj]
  · intro a hn
    rw [sanitizeAppState_zoom, hn]
    rfl

/-- Witness for C3 at concrete inputs, ending with the spec's concrete
scenario: a scene-update carrying a NaN zoom leaves the stored room's
zoom at the wrapper of 1. -/
theorem C3_sanitization_rules_witness :
    jget (sanitizeAppState [("zoom", JsVal.num 2)]) "zoom" = .vobj (.num 2)
    ∧ jget (sanitizeAppState [("zoom", JsVal.vobj .nan)]) "zoom" = .vobj (.num 1)
    ∧ jget (sanitizeAppState [("zoom", JsVal.nan)]) "zoom" = .vobj (.num 1)
    ∧ jget (sanitizeAppState [("scrollX", JsVal.nan)]) "scrollX" = .num 0
    ∧ jget (sanitizeAppState [("scrollY", JsVal.nan)]) "scrollY" = .num 0
    ∧ jget (sanitizeElement ⟨"e1", [("x", JsVal.nan)]⟩).props "x" = .num 0
    ∧ (lookupRoom (handleSceneUpdate ⟨[("s1", "demo")], []⟩ "s1"
          ⟨[], some [("zoom", JsVal.nan)], none⟩ false).2 "demo").map
        (fun r => jget r.appState "zoom") = some (.vobj (.num 1)) := by
  refine ⟨?_, ?_, ?_, ?_, ?_, ?_, ?_⟩
  · have h := C3_sanitization_rules.1 [("zoom", JsVal.num 2)] 2 rfl
    rw [h, if_neg (by norm_num)]
  · have h := C3_sanitization_rules.2.1 [("zoom", JsVal.vobj .nan)] .nan rfl
    rw [h]
    rfl
  · exact C3_sanitization_rules.2.2.1 [("zoom", JsVal.nan)] rfl
  · exact C3_sanitization_rules.2.2.2.1 [("scrollX", JsVal.nan)] rfl
  · exact C3_sanitization_rules.2.2.2.2.1 [("scrollY", JsVal.nan)] rfl
  · exact C3_sanitization_rules.2.2.2.2.2.1 ⟨"e1", [("x", JsVal.nan)]⟩ "x"
      (Or.inl rfl) rfl
  · exact C3_sanitization_rules.2.2.2.2.2.2 ⟨[("s1", "demo")], []⟩ "s1" "demo"
      ⟨[], some [("zoom", JsVal.nan)], none⟩ [("zoom", JsVal.nan)] rfl rfl rfl rfl

theorem preSave_users (r : Room) : (preSave r).activeUsers = r.activeUsers := rfl

theorem lookupRoom_mk_setAssoc (mp : List (String × String))
    (rs : List (String × Room)) (roomId : String) (r : Room) :
    lookupRoom ⟨mp, setAssocRoom rs roomId r⟩ roomId = some r :=
  findAssoc_set_self _ _ _

theorem lookupRoom_setMap (st : SState) (m : List (String × String))
    (roomId : String) :
    lookupRoom { st with socketRoomMap := m } roomId = lookupRoom st roomId := rfl

/-- Counterexample for C8: a join-room with a valid room id whose user
payload omits both username and color does not create a presence
entry: the store save is rejected (color is required with no default),
the server emits an error event, and the stored room keeps zero
presence entries.  Moreover a join carrying an empty-string username
with a valid color stores the empty string, not the Anonymous
default. -/
theorem C8_counterexample :
    ((handleJoinRoom ⟨[], [("demo", newRoom "demo")]⟩ "s1"
        ⟨"demo", .undefined, .undefined⟩).1 = [Ev.errorToSender "ValidationError"])
    ∧ ((lookupRoom (handleJoinRoom ⟨[], [("demo", newRoom "demo")]⟩ "s1"
        ⟨"demo", .undefined, .undefined⟩).2 "demo").map (fun r => r.activeUsers)
        = some [])
    ∧ ((lookupRoom (handleJoinRoom ⟨[], [("demo", newRoom "demo")]⟩ "s1"
        ⟨"demo", .str "", .str "#abc"⟩).2 "demo").map
          (fun r => r.activeUsers.map (fun u => u.username))
        = some [.str ""]) :=
  ⟨rfl, rfl, rfl⟩

/-- C8 amended: on join-room only a missing (undefined) username is
replaced by the Anonymous default of the store schema, while an empty
username is stored as given; color has no server-side default, so a
join whose payload omits color fails the store's save validation: the
server emits an error and persists no presence entry; a join carrying
a nonempty color string succeeds in creating the entry. -/
theorem C8_join_defaults_amended (st : SState) (sid roomId : String)
    (r : Room) (c : String)
    (hmap : lookupRoomOf st sid = none)
    (hroom : lookupRoom st roomId = some r)
    (hv : usersValid r = true)
    (habs : r.activeUsers.any (fun u => u.socketId == sid) = false)
    (hc : c ≠ "") :
    ((lookupRoom (handleJoinRoom st sid ⟨roomId, .undefined, .str c⟩).2 roomId).map
        (fun x => x.activeUsers)
      = some (r.activeUsers ++
          [⟨sid, .str "Anonymous", .str c, [("x", .num 0), ("y", .num 0)]⟩]))
    ∧ ((handleJoinRoom st sid ⟨roomId, .undefined, .undefined⟩).1
        = [Ev.errorToSender "ValidationError"])
    ∧ ((handleJoinRoom st sid ⟨roomId, .undefined, .undefined⟩).2.rooms = st.rooms) := by
  have hlv : handleLeaveRoom st sid = ([], st) := by
    simp only [handleLeaveRoom, hmap]
  have hlook : lookupRoom
      { st with socketRoomMap := setAssocStr st.socketRoomMap sid roomId }
      roomId = some r := hroom
  have hadd : Room.addUser r sid JsStr.undefined (.str c)
      = { r with activeUsers := r.activeUsers ++
          [⟨sid, .str "Anonymous", .str c, [("x", .num 0), ("y", .num 0)]⟩] } := by
    unfold Room.addUser
    rw [habs]
    simp [castUsername]
  have hvalid1 : usersValid (Room.addUser r sid JsStr.undefined (.str c)) = true := by
    rw [hadd]
    show (r.activeUsers ++
        [(⟨sid, .str "Anonymous", .str c,
            [("x", .num 0), ("y", .num 0)]⟩ : UserEntry)]).all
        (fun u => validColor u.color) = true
    rw [List.all_append]
    have hv' : r.activeUsers.all (fun u => validColor u.color) = true := hv
    rw [hv', Bool.true_and]
    simp [validColor, hc]
  have hadd2 : Room.addUser r sid JsStr.undefined JsStr.undefined
      = { r with activeUsers := r.activeUsers ++
          [⟨sid, .str "Anonymous", .undefined, [("x", .num 0), ("y", .num 0)]⟩] } := by
    unfold Room.addUser
    rw [habs]
    simp [castUsername]
  have hsave2 : roomSave (Room.addUser r sid JsStr.undefined JsStr.undefined) = none := by
    rw [hadd2]
    unfold roomSave
    have hfalse : ((r.activeUsers ++
        [(⟨sid, .str "Anonymous", JsStr.undefined,
            [("x", JsVal.num 0), ("y", JsVal.num 0)]⟩ : UserEntry)]).all
        (fun u => validColor u.color)) = false := by
      rw [List.all_append]
      simp [validColor]
    rw [hfalse]
    simp
  refine ⟨?_, ?_, ?_⟩
  · simp only [handleJoinRoom, hlv, hlook, Option.getD_some,
      roomSave_of_valid _ hvalid1]
    rw [lookupRoom_mk_setAssoc]
    simp only [Option.map_some', preSave_users]
    rw [hadd]
  · simp only [handleJoinRoom, hlv, hlook, Option.getD_some, hsave2,
      List.nil_append]
  · simp only [handleJoinRoom, hlv, hlook, Option.getD_some, hsave2,
      List.nil_append]

/-- Witness for the amended C8 at a fresh room and concrete user
payloads. -/
theorem C8_join_defaults_amended_witness :
    ((lookupRoom (handleJoinRoom ⟨[], [("demo", newRoom "demo")]⟩ "s1"
        ⟨"demo", .undefined, .str "#abc"⟩).2 "demo").map (fun x => x.activeUsers)
      = some ((newRoom "demo").activeUsers ++
          [⟨"s1", .str "Anonymous", .str "#abc", [("x", .num 0), ("y", .num 0)]⟩]))
    ∧ ((handleJoinRoom ⟨[], [("demo", newRoom "demo")]⟩ "s1"
        ⟨"demo", .undefined, .undefined⟩).1 = [Ev.errorToSender "ValidationError"])
    ∧ ((handleJoinRoom ⟨[], [("demo", newRoom "demo")]⟩ "s1"
        ⟨"demo", .undefined, .undefined⟩).2.rooms
        = (⟨[], [("demo", newRoom "demo")]⟩ : SState).rooms) :=
  C8_join_defaults_amended ⟨[], [("demo", newRoom "demo")]⟩ "s1" "demo"
    (newRoom "demo") "#abc" rfl rfl rfl rfl (by decide)
